import Mathlib

/-!
Shallow embedding of `src/iss_tracker.py` (a Flask app serving NASA ISS
ephemeris data) and verification of the specification claims about it.

Modelling conventions:
* The parsed in-memory data set (`data` in the Python module) is either the
  loaded document or the empty list it is rebound to by `delete_data`; we
  model it with the inductive type `Data`.  A loaded document carries the
  ordered list of state-vector records; the auxiliary comment/header/metadata
  records are not touched by any claim and are omitted.
* One state-vector record (`data[...]['stateVector'][i]`) is a `StateVector`:
  the `EPOCH` string plus the six numeric components.  The Python code stores
  the components as strings and converts with `float(...)`; we model the
  converted numeric values as exact rationals, and real-valued derived
  quantities (square roots) as real numbers.
* Each Flask view function returns heterogeneous Python values (lists, dicts,
  strings) and can raise; each endpoint gets a small result inductive with one
  constructor per possible outcome, and a `exn` constructor for a raised
  exception, labelled with the exception class.
-/

set_option autoImplicit false

namespace IssTracker

/-- One record of `data['ndm']['oem']['body']['segment']['data']['stateVector']`:
the `EPOCH` string and the six numeric components (already `float(...)`ed,
modelled as exact rationals). -/
structure StateVector where
  epoch : String
  x : ℚ
  y : ℚ
  z : ℚ
  x_dot : ℚ
  y_dot : ℚ
  z_dot : ℚ
  deriving DecidableEq

/-- The module-global `data`: either the parsed document (holding the ordered
list of state vectors) or the empty Python list that `delete_data` rebinds it
to.  The equality test `data == []` in the endpoints is `true` exactly on the
`empty` constructor: the parsed document is a non-empty dict, never `== []`. -/
inductive Data where
  | doc (store : List StateVector)
  | empty
  deriving DecidableEq

/-- Python truthiness of the values the `offset`/`limit` variables can hold
in `epochs` (lines 45-58): an `int` is truthy iff non-zero, a `str` is truthy
iff non-empty. -/
def pyTruthy : Sum Int String → Bool
  | .inl n => decide (n ≠ 0)
  | .inr s => decide (s ≠ "")

/-- Python `==` between the `int` loop counter and the `limit` variable
(line 65): `int == int` is numeric equality, `int == str` is `False`
(no exception). -/
def pyEqInt (n : Int) : Sum Int String → Bool
  | .inl m => decide (n = m)
  | .inr _ => false

/-- All-digit check and decimal value of a character list (the digit part of
Python `int(str)`).  `none` when the list is empty or has a non-digit. -/
def digitsVal (cs : List Char) : Option Nat :=
  if cs ≠ [] ∧ cs.all Char.isDigit then
    some (cs.foldl (fun n c => 10 * n + (c.toNat - 48)) 0)
  else none

/-- Python `str.strip()` on a character list: drop leading and trailing
whitespace. -/
def pyStrip (cs : List Char) : List Char :=
  ((cs.dropWhile Char.isWhitespace).reverse.dropWhile Char.isWhitespace).reverse

/-- Python `int(s)` for a `str` argument: strip whitespace, allow one leading
sign, then decimal digits; `none` models the raised `ValueError`.  (Underscore
digit grouping and non-ASCII digits, which CPython also accepts, are not
modelled; no claim involves them.) -/
def parseIntPy (s : String) : Option Int :=
  match pyStrip s.data with
  | '-' :: rest => (digitsVal rest).map (fun n => -(n : Int))
  | '+' :: rest => (digitsVal rest).map (fun n => (n : Int))
  | cs => (digitsVal cs).map (fun n => (n : Int))

/-- Lines 48-58 of `epochs`, for either parameter: `if offset: offset =
int(offset)` guarded by `try/except ValueError` returning the given error
message.  A falsy value (the `int` default `0`, or a supplied empty string)
skips the conversion and is kept unchanged; a truthy string is parsed, with
parse failure producing the error message; a truthy int is `int(...)`ed to
itself. -/
def convertParam (v : Sum Int String) (errMsg : String) :
    Except String (Sum Int String) :=
  if pyTruthy v then
    match v with
    | .inl n => .ok (.inl n)
    | .inr s =>
      match parseIntPy s with
      | some n => .ok (.inl n)
      | none => .error errMsg
  else
    .ok v

/-- Result of the `/epochs` view function `epochs` (line 29-74): the bare `[]`
returned when `data == []`, the list of epoch strings, one of the two error
message strings, or a raised exception. -/
inductive EpochsResult where
  | emptyList
  | ok (ids : List String)
  | message (s : String)
  | exn (s : String)
  deriving DecidableEq

/-- The `for d in data[...]['stateVector']` loop of `epochs` (lines 60-73),
with the `limit` and `offset` variables possibly still holding a string
(only reachable with the empty string, which survives the truthiness guard):
* `if (count == limit): break` — `int == str` is `False`, so a string limit
  never breaks;
* `if offset_count >= offset:` — `int >= str` raises `TypeError`;
* append `d['EPOCH']` and bump `count` once past the offset, bump
  `offset_count` every iteration. -/
def epochsLoop : List StateVector → Sum Int String → Sum Int String →
    Int → Int → Except String (List String)
  | [], _, _, _, _ => .ok []
  | d :: rest, limit, offset, count, offset_count =>
    if pyEqInt count limit then
      .ok []
    else
      match offset with
      | .inr _ => .error "TypeError: int >= str comparison"
      | .inl off =>
        if off ≤ offset_count then
          (epochsLoop rest limit offset (count + 1) (offset_count + 1)).map
            (fun l => d.epoch :: l)
        else
          epochsLoop rest limit offset count (offset_count + 1)

/-- The `/epochs` view function `epochs` (lines 29-74).  `offsetArg`/`limitArg`
are `request.args.get('offset', 0)` and `request.args.get('limit', len(...))`:
`none` means the query parameter was absent, so the `int` default is used. -/
def epochs (d : Data) (offsetArg limitArg : Option String) : EpochsResult :=
  match d with
  | .empty => .emptyList
  | .doc store =>
    let offset0 : Sum Int String :=
      match offsetArg with
      | none => .inl 0
      | some s => .inr s
    let limit0 : Sum Int String :=
      match limitArg with
      | none => .inl store.length
      | some s => .inr s
    match convertParam offset0 "Error: Offset parameter must be greater than 0." with
    | .error m => .message m
    | .ok offset =>
      match convertParam limit0 "Error: Limit parameter must be greater than 0." with
      | .error m => .message m
      | .ok limit =>
        match epochsLoop store limit offset 0 0 with
        | .ok l => .ok l
        | .error m => .exn m

/-- Lines 92-98 of `state_vector`: build `allEpochs` (the `EPOCH` of every
record), then `if epoch in allEpochs:` take the record at
`allEpochs.index(epoch)` — i.e. at the index of the first occurrence. -/
def lookupEpoch (store : List StateVector) (epoch : String) : Option StateVector :=
  let allEpochs := store.map StateVector.epoch
  if epoch ∈ allEpochs then store[allEpochs.indexOf epoch]? else none

/-- Result of the `/epochs/<epoch>` view function `state_vector`
(lines 76-101). -/
inductive SVResult where
  | emptyList
  | record (sv : StateVector)
  | message (s : String)
  deriving DecidableEq

/-- The `/epochs/<epoch>` view function `state_vector` (lines 76-101):
`[]` when `data == []`, the first record whose `EPOCH` equals the argument
exactly, else the fixed message string. -/
def state_vector (d : Data) (epoch : String) : SVResult :=
  match d with
  | .empty => .emptyList
  | .doc store =>
    match lookupEpoch store epoch with
    | some sv => .record sv
    | none => .message "Please enter a valid Epoch time stamp.\n"

/-- The speed formula of line 127: `math.sqrt(x_dot**2 + y_dot**2 + z_dot**2)`,
with the floats modelled as exact reals. -/
noncomputable def speedOf (vx vy vz : ℚ) : ℝ :=
  Real.sqrt ((vx : ℝ) ^ 2 + (vy : ℝ) ^ 2 + (vz : ℝ) ^ 2)

/-- Result of the `/epochs/<epoch>/speed` view function `speed`
(lines 103-131): `[]` on empty data, the `{'value': ..., 'units': "km/s"}`
dict, the fixed message string, or a raised exception. -/
inductive SpeedResult where
  | emptyList
  | ok (value : ℝ) (units : String)
  | message (s : String)
  | exn (s : String)

/-- The `/epochs/<epoch>/speed` view function `speed` (lines 103-131):
`allEpochs = epochs()` runs the `/epochs` logic with no query arguments;
when the epoch is in that list, `state_vector(epoch)` fetches the record and
the speed dict is built from its velocity components. -/
noncomputable def speed (d : Data) (epoch : String) : SpeedResult :=
  match d with
  | .empty => .emptyList
  | .doc store =>
    match epochs (Data.doc store) none none with
    | .ok allEpochs =>
      if epoch ∈ allEpochs then
        match state_vector (Data.doc store) epoch with
        | .record sv => .ok (speedOf sv.x_dot sv.y_dot sv.z_dot) "km/s"
        | _ => .exn "TypeError: state_vector did not return a record"
      else
        .message "Please enter a valid Epoch time stamp."
    | _ => .exn "unreachable: epochs() with no arguments cannot fail"

/-- Lines 283-287 of `location`: the longitude wraparound.  The value is the
raw longitude; the result is the value stored under `locationData['LONGITUDE']`
— and the code has NO `else` branch, so when the raw longitude is already in
`[-180, 180]` the key is never assigned (`none`). -/
def normalizeLongitude (longitude : ℚ) : Option ℚ :=
  if longitude > 180 then some (longitude - 360)
  else if longitude < -180 then some (longitude + 360)
  else none

/-- Result of the `/epochs/<epochs>/location` view function `location`
(lines 253-298).  There is no success constructor: on a present epoch the
function raises before assembling `locationData` (see `location`), and on an
absent epoch it falls off the end of the `if` with no `else`, returning
Python `None` (`pyNone`). -/
inductive LocResult where
  | emptyList
  | pyNone
  | exn (s : String)
  deriving DecidableEq

/-- The `/epochs/<epochs>/location` view function `location` (lines 253-298):
`[]` when `data == []` (line 267); otherwise `allEpochs = epochs()`
(line 271) and, for a present epoch, line 273 fetches the record but line 274
executes `epoch = state_vector['EPOCH']` — subscripting the *function object*
`state_vector` instead of `epochData` — which raises `TypeError` before any
of the latitude/longitude/altitude code (lines 275-297) can run.  For an
absent epoch there is no `else`: the function returns `None`. -/
def location (d : Data) (epoch : String) : LocResult :=
  match d with
  | .empty => .emptyList
  | .doc store =>
    match epochs (Data.doc store) none none with
    | .ok allEpochs =>
      if epoch ∈ allEpochs then
        .exn "TypeError: subscripting the function object state_vector"
      else
        .pyNone
    | _ => .pyNone

/-- Result of the `/now` view function `now` (lines 300-338): the function
always raises, so the only constructor is a raised exception. -/
inductive NowResult where
  | exn (s : String)
  deriving DecidableEq

/-- The `/now` view function `now` (lines 300-338).  Statement by statement:
* line 312 runs `data['ndm'][...]` BEFORE the `data == []` check of line 315,
  so on cleared data (`data = []`) it raises `TypeError` (string index into a
  list);
* on loaded data line 312 succeeds and the line 315 check is false, but
  line 320 evaluates `data[0]` — and `data` is the parsed document dict,
  which has no key `0` — raising `KeyError`.
(The function body is in fact not even runnable as written: lines 337-338
leave two parentheses unbalanced, a `SyntaxError` at import time; the model
follows the statements in order as they appear.) -/
def now (d : Data) : NowResult :=
  match d with
  | .empty => .exn "TypeError: list indices must be integers, not str"
  | .doc _ => .exn "KeyError: 0"

/-- The `/delete-data` view function `delete_data` (lines 158-173): rebinds
the global `data` to the empty list and returns the confirmation string. -/
def delete_data (_ : Data) : Data × String :=
  (Data.empty, "NASA ISS trajectory data set has been deleted.\n")

/-! Sample records used by concrete witnesses and counterexamples. -/

/-- Sample record 1. -/
def sv1 : StateVector := ⟨"E1", 1, 2, 3, 1, 0, 0⟩

/-- Sample record 2. -/
def sv2 : StateVector := ⟨"E2", 4, 5, 6, 0, 1, 0⟩

/-- Sample record 3. -/
def sv3 : StateVector := ⟨"E3", 7, 8, 9, 0, 0, 1⟩

/-- A concrete three-record store. -/
def sampleStore : List StateVector := [sv1, sv2, sv3]

/-- A record with velocity components (3, 4, 0). -/
def svFast : StateVector := ⟨"S1", 10, 20, 30, 3, 4, 0⟩

/-- A concrete one-record store. -/
def fastStore : List StateVector := [svFast]

/-! Helper lemmas. -/

/-- Characterization of the `epochs` loop when both `limit` and `offset` hold
integers: starting from counters `count` and `offCount`, it never raises and
produces the drop/take slice, where a limit already passed (`lim < count`,
only reachable from a negative supplied limit) never triggers the `break`. -/
theorem epochsLoop_inl (svs : List StateVector) (lim off count offCount : Int) :
    epochsLoop svs (Sum.inl lim) (Sum.inl off) count offCount =
      .ok (if count ≤ lim
        then ((svs.map StateVector.epoch).drop (off - offCount).toNat).take
          (lim - count).toNat
        else (svs.map StateVector.epoch).drop (off - offCount).toNat) := by
  induction svs generalizing count offCount with
  | nil => simp [epochsLoop]
  | cons d rest ih =>
    by_cases hcl : count = lim
    · subst hcl
      simp [epochsLoop, pyEqInt]
    · by_cases hoc : off ≤ offCount
      · rw [epochsLoop]
        simp only [pyEqInt, decide_eq_true_eq, if_neg hcl, if_pos hoc, ih,
          Except.map]
        have h1 : (off - offCount).toNat = 0 := by omega
        have h2 : (off - (offCount + 1)).toNat = 0 := by omega
        by_cases hle : count ≤ lim
        · have hle' : count + 1 ≤ lim := by omega
          have h3 : (lim - count).toNat = (lim - (count + 1)).toNat + 1 := by
            omega
          simp [h1, h2, hle, hle', h3]
        · have hle' : ¬ (count + 1 ≤ lim) := by omega
          simp [h1, h2, hle, hle']
      · rw [epochsLoop]
        simp only [pyEqInt, decide_eq_true_eq, if_neg hcl, if_neg hoc, ih]
        have h3 : (off - offCount).toNat = (off - (offCount + 1)).toNat + 1 := by
          omega
        rw [h3]
        simp [List.drop_succ_cons]

/-- Converting a parameter that already holds an int leaves it unchanged
(whether or not it is truthy). -/
theorem convertParam_inl (n : Int) (m : String) :
    convertParam (Sum.inl n) m = .ok (Sum.inl n) := by
  unfold convertParam
  split <;> rfl

/-- `epochs()` with no query arguments returns the full list of epoch
identifiers in store order. -/
theorem epochs_default (store : List StateVector) :
    epochs (Data.doc store) none none = .ok (store.map StateVector.epoch) := by
  have h0 : ((0 : Int) - 0).toNat = 0 := by omega
  have hl : (((store.length : Int)) - 0).toNat = store.length := by omega
  simp [epochs, convertParam_inl, epochsLoop_inl, h0, hl]

/-- The empty string does not parse as a Python int. -/
theorem parseIntPy_empty : parseIntPy "" = none := by rfl

/-- A string that parses as an int is non-empty. -/
theorem parseIntPy_ne_empty {s : String} {n : Int} (h : parseIntPy s = some n) :
    s ≠ "" := by
  intro he
  rw [he, parseIntPy_empty] at h
  exact Option.noConfusion h

/-- The index-based lookup of `state_vector` (membership test, `list.index`,
subscript) agrees with taking the first record whose `EPOCH` matches. -/
theorem lookupEpoch_eq_find (store : List StateVector) (e : String) :
    lookupEpoch store e = store.find? (fun sv => sv.epoch == e) := by
  induction store with
  | nil => simp [lookupEpoch]
  | cons d rest ih =>
    by_cases h : d.epoch = e
    · simp [lookupEpoch, List.find?, h, List.indexOf_cons_self]
    · have hne : e ≠ d.epoch := fun he => h he.symm
      have hbe : (d.epoch == e) = false := beq_false_of_ne h
      rw [List.find?]
      rw [hbe]
      by_cases hm : e ∈ rest.map StateVector.epoch
      · have : lookupEpoch (d :: rest) e
            = rest[(rest.map StateVector.epoch).indexOf e]? := by
          simp [lookupEpoch, List.indexOf_cons_ne _ hne, hm, h]
        rw [this, ← ih]
        simp [lookupEpoch, hm]
      · have : lookupEpoch (d :: rest) e = none := by
          simp [lookupEpoch, hm, h]
        rw [this, ← ih]
        simp [lookupEpoch, hm]

/-! Claim theorems. -/

/-- Claim C1: for every non-negative integer offset and limit and every loaded
store, the `/epochs` loop (lines 60-74) returns the contiguous slice of the
epoch identifiers in store order obtained by dropping the first `offset`
records and taking up to `limit`; its length is `min limit (size - offset)`
(natural subtraction, i.e. `max 0 (size - offset)`); an offset at or beyond
the store size yields the empty list, and a limit of `0` yields the empty
list. -/
theorem c1_pagination (store : List StateVector) (off lim : Int)
    (h1 : 0 ≤ off) (h2 : 0 ≤ lim) :
    epochsLoop store (Sum.inl lim) (Sum.inl off) 0 0 =
      .ok (((store.map StateVector.epoch).drop off.toNat).take lim.toNat)
  ∧ (((store.map StateVector.epoch).drop off.toNat).take lim.toNat).length
      = min lim.toNat (store.length - off.toNat)
  ∧ (store.length ≤ off.toNat →
      epochsLoop store (Sum.inl lim) (Sum.inl off) 0 0 = .ok [])
  ∧ (lim = 0 → epochsLoop store (Sum.inl lim) (Sum.inl off) 0 0 = .ok []) := by
  have hmain := epochsLoop_inl store lim off 0 0
  have hoff : (off - 0).toNat = off.toNat := by omega
  have hlim : (lim - 0).toNat = lim.toNat := by omega
  rw [hoff, hlim, if_pos h2] at hmain
  refine ⟨hmain, ?_, ?_, ?_⟩
  · rw [List.length_take, List.length_drop, List.length_map]
  · intro hbeyond
    rw [hmain]
    have hnil : (store.map StateVector.epoch).drop off.toNat = [] :=
      List.drop_eq_nil_of_le (by simpa using hbeyond)
    rw [hnil, List.take_nil]
  · intro h0
    rw [hmain, h0]
    simp

/-- Witness for C1: offset 1 and limit 2 on the three-record sample store
yield exactly the two middle-to-last identifiers. -/
theorem c1_pagination_witness :
    epochsLoop sampleStore (Sum.inl 2) (Sum.inl 1) 0 0 = .ok ["E2", "E3"] := by
  have h := (c1_pagination sampleStore 1 2 (by decide) (by decide)).1
  rw [h]
  rfl

/-- Claim C2 (code bug): the longitude wraparound (lines 283-287) maps 190 to
-170 and -190 to 170 as the spec states, but an in-range raw longitude such
as 0 is NOT kept as-is: the code has no `else` branch, so
`locationData['LONGITUDE']` is never assigned (`none`), where the claim says
the value stays unchanged. -/
theorem c2_normalize_longitude :
    normalizeLongitude 190 = some (-170)
  ∧ normalizeLongitude (-190) = some 170
  ∧ normalizeLongitude 0 = none := by
  refine ⟨?_, ?_, ?_⟩ <;> norm_num [normalizeLongitude]

/-- Claim C3 (code bug): on any loaded store, `/now` (lines 300-338) raises
`KeyError` — line 320 evaluates `data[0]` on the parsed document dict, which
has no integer key — instead of returning the record with minimal absolute
time delta and its signed delta.  (The body as written is not even
importable: lines 337-338 leave two parentheses unbalanced.) -/
theorem c3_now_keyerror (store : List StateVector) :
    now (Data.doc store) = NowResult.exn "KeyError: 0" := rfl

/-- Claim C4: for every record reachable through the exact-match lookup,
`/epochs/<epoch>/speed` returns the Euclidean norm of the three velocity
components tagged `"km/s"`; in particular velocity (3, 4, 0) yields speed
5. -/
theorem c4_speed (store : List StateVector) (e : String) (sv : StateVector)
    (h : state_vector (Data.doc store) e = SVResult.record sv) :
    speed (Data.doc store) e =
      SpeedResult.ok
        (Real.sqrt ((sv.x_dot : ℝ) ^ 2 + (sv.y_dot : ℝ) ^ 2 + (sv.z_dot : ℝ) ^ 2))
        "km/s"
  ∧ (sv.x_dot = 3 → sv.y_dot = 4 → sv.z_dot = 0 →
      speed (Data.doc store) e = SpeedResult.ok 5 "km/s") := by
  have hlook : lookupEpoch store e = some sv := by
    simp only [state_vector] at h
    cases hl : lookupEpoch store e with
    | none => rw [hl] at h; exact absurd h (by simp)
    | some sv' =>
      rw [hl] at h
      injection h with hx
      rw [hx]
  have hfind : store.find? (fun sv => sv.epoch == e) = some sv := by
    rw [← lookupEpoch_eq_find]; exact hlook
  have hsve : sv.epoch = e := by
    have := List.find?_some hfind
    simpa using this
  have hmem : e ∈ store.map StateVector.epoch :=
    List.mem_map.mpr ⟨sv, List.mem_of_find?_eq_some hfind, hsve⟩
  constructor
  · simp only [speed, epochs_default, if_pos hmem, h]
    rfl
  · intro h3 h4 h0
    have h5 : speedOf sv.x_dot sv.y_dot sv.z_dot = 5 := by
      rw [speedOf, h3, h4, h0]
      push_cast
      rw [show (3 : ℝ) ^ 2 + (4 : ℝ) ^ 2 + (0 : ℝ) ^ 2 = 5 ^ 2 by norm_num]
      exact Real.sqrt_sq (by norm_num)
    simp only [speed, epochs_default, if_pos hmem, h, h5]

/-- Witness for C4: the one-record store whose velocity is (3, 4, 0) yields
speed exactly 5 km/s. -/
theorem c4_speed_witness :
    speed (Data.doc fastStore) "S1" = SpeedResult.ok 5 "km/s" :=
  (c4_speed fastStore "S1" svFast (by decide)).2 rfl rfl rfl

/-- Claim C5 counterexample: the supplied value "-1" is an integer that is
negative, so per the claim it must signal `InvalidParameter`; instead the
`/epochs` endpoint accepts it and returns the full epoch list. -/
theorem c5_counterexample :
    epochs (Data.doc sampleStore) (some "-1") none =
      EpochsResult.ok ["E1", "E2", "E3"] := by decide

/-- Claim C5 amended: a supplied non-empty value that does not parse as an
integer makes `/epochs` return the corresponding error message (the
`InvalidParameter` signal) and never a default or coerced epoch list;
values that parse as negative integers, however, are accepted (see C10). -/
theorem c5_invalid_param (store : List StateVector) (s : String)
    (hne : s ≠ "") (hp : parseIntPy s = none) :
    epochs (Data.doc store) (some s) none =
      EpochsResult.message "Error: Offset parameter must be greater than 0."
  ∧ epochs (Data.doc store) none (some s) =
      EpochsResult.message "Error: Limit parameter must be greater than 0." := by
  have ht : pyTruthy (Sum.inr s) = true := by simp [pyTruthy, hne]
  constructor
  · simp [epochs, convertParam, ht, hp]
  · simp [epochs, convertParam, ht, hp, convertParam_inl]

/-- Witness for the amended C5: the non-integer value "abc" signals the
offset error when supplied as offset and the limit error when supplied as
limit. -/
theorem c5_invalid_param_witness :
    epochs (Data.doc sampleStore) (some "abc") none =
      EpochsResult.message "Error: Offset parameter must be greater than 0."
  ∧ epochs (Data.doc sampleStore) none (some "abc") =
      EpochsResult.message "Error: Limit parameter must be greater than 0." :=
  c5_invalid_param sampleStore "abc" (by decide) (by decide)

/-- Claim C6: on a loaded store, `/epochs/<epoch>` returns a record only if it
is in the store and its `EPOCH` equals the argument exactly; whenever a
matching record exists one is returned; when no record matches, the
not-found message is returned; and every identifier produced by `/epochs`
with no arguments resolves to a record (round trip). -/
theorem c6_exact_lookup (store : List StateVector) (e : String) :
    (∀ sv, state_vector (Data.doc store) e = SVResult.record sv →
      sv ∈ store ∧ sv.epoch = e)
  ∧ ((∃ sv ∈ store, sv.epoch = e) →
      ∃ sv, state_vector (Data.doc store) e = SVResult.record sv ∧ sv.epoch = e)
  ∧ ((∀ sv ∈ store, sv.epoch ≠ e) →
      state_vector (Data.doc store) e =
        SVResult.message "Please enter a valid Epoch time stamp.\n")
  ∧ (∀ ids, epochs (Data.doc store) none none = EpochsResult.ok ids →
      ∀ id ∈ ids, ∃ sv, state_vector (Data.doc store) id = SVResult.record sv) := by
  have hsv : ∀ e' : String, state_vector (Data.doc store) e' =
      (match store.find? (fun sv => sv.epoch == e') with
        | some sv => SVResult.record sv
        | none => SVResult.message "Please enter a valid Epoch time stamp.\n") := by
    intro e'
    simp only [state_vector, lookupEpoch_eq_find]
  have key : ∀ e' : String, (∃ sv ∈ store, sv.epoch = e') →
      ∃ sv, state_vector (Data.doc store) e' = SVResult.record sv ∧
        sv.epoch = e' := by
    intro e' he
    obtain ⟨sv0, hm, he0⟩ := he
    cases hf : store.find? (fun sv => sv.epoch == e') with
    | none => exact absurd (by simp [he0]) (List.find?_eq_none.mp hf sv0 hm)
    | some sv' =>
      refine ⟨sv', ?_, ?_⟩
      · rw [hsv e', hf]
      · simpa using List.find?_some hf
  refine ⟨?_, key e, ?_, ?_⟩
  · intro sv h
    rw [hsv e] at h
    cases hf : store.find? (fun sv => sv.epoch == e) with
    | none => rw [hf] at h; exact absurd h (by simp)
    | some sv' =>
      rw [hf] at h
      injection h with hx
      rw [← hx]
      exact ⟨List.mem_of_find?_eq_some hf, by simpa using List.find?_some hf⟩
  · intro hall
    have hf : store.find? (fun sv => sv.epoch == e) = none :=
      List.find?_eq_none.mpr (fun x hx => by simpa using hall x hx)
    rw [hsv e, hf]
  · intro ids hids id hid
    rw [epochs_default] at hids
    injection hids with hids'
    rw [← hids'] at hid
    obtain ⟨sv0, hm, he0⟩ := List.mem_map.mp hid
    obtain ⟨sv, hrec, _⟩ := key id ⟨sv0, hm, he0⟩
    exact ⟨sv, hrec⟩

/-- Witness for C6: the identifier "E2" of the sample store resolves to a
record whose `EPOCH` is "E2". -/
theorem c6_exact_lookup_witness :
    ∃ sv, state_vector (Data.doc sampleStore) "E2" = SVResult.record sv ∧
      sv.epoch = "E2" :=
  (c6_exact_lookup sampleStore "E2").2.1 ⟨sv2, by decide, by decide⟩

/-- Claim C7 (code bug): after clearing the store with `/delete-data`, the
`/now` endpoint does not return an explicit no-data result: line 312 runs
`data['ndm'][...]` BEFORE the `data == []` check of line 315, so on cleared
data it raises `TypeError` (string index into a list). -/
theorem c7_clear_then_now_raises (d : Data) :
    now (delete_data d).1 =
      NowResult.exn "TypeError: list indices must be integers, not str" := rfl

/-- Claim C8 (code bug): for a present epoch, `/epochs/<epochs>/location`
never computes latitude, longitude or altitude: line 274 executes
`epoch = state_vector['EPOCH']`, subscripting the function object
`state_vector` instead of the fetched record `epochData`, which raises
`TypeError` before the formulas of lines 275-290 run. -/
theorem c8_location_raises (store : List StateVector) (e : String)
    (h : e ∈ store.map StateVector.epoch) :
    location (Data.doc store) e =
      LocResult.exn "TypeError: subscripting the function object state_vector" := by
  simp [location, epochs_default, h]

/-- Witness for C8: the present epoch "E1" of the sample store makes the
location endpoint raise. -/
theorem c8_location_raises_witness :
    location (Data.doc sampleStore) "E1" =
      LocResult.exn "TypeError: subscripting the function object state_vector" :=
  c8_location_raises sampleStore "E1" (by decide)

/-- Claim C9 counterexample (negation of the claim): there is NO velocity
input on which the speed formula distinguishes the order of the first two
axes — `sqrt(vx² + vy² + vz²)` is symmetric, so
`speedOf vx vy vz = speedOf vy vx vz` always. -/
theorem c9_counterexample :
    ¬ ∃ vx vy vz : ℚ, speedOf vx vy vz ≠ speedOf vy vx vz := by
  push_neg
  intro vx vy vz
  rw [speedOf, speedOf]
  congr 1
  ring

/-- Claim C9 amended: `speedOf` IS invariant under swapping the first two
velocity axes: `speedOf vx vy vz = speedOf vy vx vz` for every input. -/
theorem c9_swap_invariant (vx vy vz : ℚ) :
    speedOf vx vy vz = speedOf vy vx vz := by
  rw [speedOf, speedOf]
  congr 1
  ring

/-- Claim C10: the `/epochs` operation accepts negative integer parameter
values without signalling any error: a negative offset behaves exactly like
offset 0, a negative limit returns all records from the offset position to
the end of the store, and any string parsing as an integer (negative
included) produces an `ok` epoch list at the endpoint. -/
theorem c10_negative_params (store : List StateVector) (off lim : Int) :
    (off < 0 → epochsLoop store (Sum.inl lim) (Sum.inl off) 0 0 =
      epochsLoop store (Sum.inl lim) (Sum.inl 0) 0 0)
  ∧ (lim < 0 → epochsLoop store (Sum.inl lim) (Sum.inl off) 0 0 =
      .ok ((store.map StateVector.epoch).drop off.toNat))
  ∧ (∀ s : String, ∀ n : Int, parseIntPy s = some n →
      ∃ l, epochs (Data.doc store) (some s) (some s) = EpochsResult.ok l) := by
  refine ⟨?_, ?_, ?_⟩
  · intro hoff
    rw [epochsLoop_inl, epochsLoop_inl]
    have h1 : (off - 0).toNat = 0 := by omega
    have h2 : ((0 : Int) - 0).toNat = 0 := by omega
    rw [h1, h2]
  · intro hlim
    rw [epochsLoop_inl]
    have h1 : ¬ ((0 : Int) ≤ lim) := by omega
    have h2 : (off - 0).toNat = off.toNat := by omega
    simp [h1, h2]
  · intro s n hp
    have hne := parseIntPy_ne_empty hp
    have ht : pyTruthy (Sum.inr s) = true := by simp [pyTruthy, hne]
    have hstep : epochs (Data.doc store) (some s) (some s) =
        (match epochsLoop store (Sum.inl n) (Sum.inl n) 0 0 with
          | .ok l => EpochsResult.ok l
          | .error m => EpochsResult.exn m) := by
      simp [epochs, convertParam, ht, hp]
    rw [epochsLoop_inl] at hstep
    exact ⟨_, hstep⟩

/-- Witness for C10: offset -2 behaves like offset 0 and limit -1 returns
everything on the sample store, and the endpoint accepts "-1" for both
parameters. -/
theorem c10_negative_params_witness :
    (epochsLoop sampleStore (Sum.inl (-1)) (Sum.inl (-2)) 0 0 =
      epochsLoop sampleStore (Sum.inl (-1)) (Sum.inl 0) 0 0)
  ∧ (epochsLoop sampleStore (Sum.inl (-1)) (Sum.inl (-2)) 0 0 =
      .ok ((sampleStore.map StateVector.epoch).drop (-2 : Int).toNat))
  ∧ ∃ l, epochs (Data.doc sampleStore) (some "-1") (some "-1") =
      EpochsResult.ok l :=
  ⟨(c10_negative_params sampleStore (-2) (-1)).1 (by decide),
   (c10_negative_params sampleStore (-2) (-1)).2.1 (by decide),
   (c10_negative_params sampleStore (-2) (-1)).2.2 "-1" (-1) (by decide)⟩

end IssTracker
